import Mathlib

/-!
Shallow embedding of `experiments/utils.py` (django-experiments): the
`WebUser` experiment engine — `get_enrollment`, `set_enrollment`,
`record_goal`, `confirm_human`, `_should_increment` — together with the
external collaborators it calls (durable enrollment rows, the session
key-value scope, the deduplicating counter store, the gargoyle switch
oracle, the experiment manager).

Modelling conventions:
* A request is reduced to the data the engine reads from it: the
  primary key of the authenticated user (or `none` for an anonymous visitor)
  and the optional `HTTP_USER_AGENT` header.
* The mutable world touched by one `WebUser` is an explicit state `St`:
  the session, the durable `Enrollment` table, the counter store, and a
  trace `incrLog` recording every invocation of `counters.increment`
  (one entry per call, before deduplication) so that "fires the
  increment exactly once" is statable.
* External read-only collaborators live in `Env`: the
  `EXPERIMENTS_VERIFY_HUMAN` setting, `gargoyle.is_active` specialised
  to the current request, `experiment_manager` as a name-to-experiment
  map (experiments are externally owned and immutable per request), and
  the session key the session backend would allocate on `save()`.
* Python truthiness of the `_should_increment` result is kept: the
  function returns `some true` / `some false` for the explicit
  `return True` / `return False`, `none` for the implicit fall-through
  `return None`, and `Except.error` for the raised `ValueError`.
* `Enrollment.objects.get_or_create` either finds the existing row,
  inserts a fresh one, or — when a concurrent insert wins the
  duplicate-key race — raises `IntegrityError`.  The race outcome is an
  explicit boolean input `raceError` to `setEnrollment`; a race-losing
  call performs no write of its own (the write of the winner belongs to the
  other request).
* Signals (`experiment_user_added`, `goal_hit`, ...) go to an optional
  external sink and are not modelled.
-/

namespace DjangoExperiments

/-- Experiment lifecycle state.  `CONTROL_STATE`, `ENABLED_STATE` and
`GARGOYLE_STATE` are distinct constants imported from
`experiments.models`; `other v` stands for any further integer value the
field could hold. -/
inductive ExpState where
  | control
  | enabled
  | gargoyle
  | other (v : Nat)
deriving DecidableEq, Repr

/-- An experiment as the engine sees it: a name, a state, and the
gargoyle switch key (the empty string models an absent/blank key, which
is falsy in Python). -/
structure Experiment where
  name : String
  state : ExpState
  switch_key : String
deriving DecidableEq, Repr

/-- Modelled from the spec: the `CONTROL_GROUP` sentinel alternative
from `experiments.models` (module not in the sources); the spec calls it
a reserved "control group" sentinel meaning excluded / not enrolled. -/
def CONTROL_GROUP : String := "control"

/-- The data the engine reads from a Django request: `request.user`
(registered primary key or anonymous) and the user-agent header. -/
structure Request where
  userPk : Option Nat
  userAgent : Option String
deriving DecidableEq, Repr

/-- The session key-value scope, restricted to what the engine touches:
the backend session key (lazily allocated), the
`experiments_verified_human` flag, and the `experiments_enrollments`
mapping experiment name to (alternative, goal list).  `none` models an
absent key. -/
structure Session where
  session_key : Option String
  verified_human : Option Bool
  enrollments : Option (List (String × String × List String))
deriving DecidableEq, Repr

/-- The mutable world of one request: session, durable enrollment rows
keyed by (user pk, experiment name), the counter store as the set of
(counter key, identity token) pairs that have contributed, and the trace
of `counters.increment` invocations (before deduplication). -/
structure St where
  session : Session
  db : List ((Nat × String) × String)
  counters : List (String × String)
  incrLog : List (String × String)
deriving DecidableEq, Repr

/-- Read-only external collaborators: the `EXPERIMENTS_VERIFY_HUMAN`
setting, the gargoyle oracle specialised to this request, the experiment
manager, and the session key a `session.save()` would allocate. -/
structure Env where
  verifyHuman : Bool
  gargoyleActive : String → Bool
  expManager : String → Experiment
  freshSessionKey : String

/-- The `PARTICIPANT_KEY` format string: `expName:alt:participant`. -/
def PARTICIPANT_KEY (expName alt : String) : String :=
  expName ++ ":" ++ alt ++ ":participant"

/-- The `GOAL_KEY` format string: `expName:alt:goal:goal-suffix`. -/
def GOAL_KEY (expName alt goal : String) : String :=
  expName ++ ":" ++ alt ++ ":" ++ goal ++ ":goal"

/-- The literal crawler signatures of `BOT_REGEX` (an alternation of
fixed strings, compiled with `re.IGNORECASE`). -/
def botSignatures : List String :=
  ["Baidu", "Gigabot", "Googlebot", "YandexBot", "AhrefsBot", "TVersity",
   "libwww-perl", "Yeti", "lwp-trivial", "msnbot", "bingbot",
   "facebookexternalhit", "Twitterbot", "Twitmunin", "SiteUptime",
   "TwitterFeed", "Slurp", "WordPress", "ZIBB", "ZyBorg"]

/-- ASCII lower-casing of one character (the signatures are ASCII, so
`re.IGNORECASE` reduces to ASCII case folding for them). -/
def lowerChar (c : Char) : Char :=
  if 65 ≤ c.toNat ∧ c.toNat ≤ 90 then Char.ofNat (c.toNat + 32) else c

/-- Case-insensitive character comparison. -/
def eqCI (a b : Char) : Bool := lowerChar a == lowerChar b

/-- Does `pre` occur (case-insensitively) at the head of `l`? -/
def leadMatch : List Char → List Char → Bool
  | [], _ => true
  | _ :: _, [] => false
  | a :: as, b :: bs => eqCI a b && leadMatch as bs

/-- Does `needle` occur contiguously anywhere in the haystack
(`re.search` semantics for a literal pattern, case-insensitive)? -/
def occursIn (needle : List Char) : List Char → Bool
  | [] => leadMatch needle []
  | b :: bs => leadMatch needle (b :: bs) || occursIn needle bs

/-- Case-insensitive literal match, as `BOT_REGEX.search` for one
alternation branch. -/
def containsCI (sig ua : String) : Bool :=
  occursIn sig.data ua.data

/-- `WebUser._is_bot`: `BOT_REGEX.search(request.META.get("HTTP_USER_AGENT",""))`
— an absent header defaults to the empty string. -/
def isBot (r : Request) : Bool :=
  botSignatures.any fun sig => containsCI sig (r.userAgent.getD "")

/-- `WebUser._is_verified_human`: when the `EXPERIMENTS_VERIFY_HUMAN`
setting is on (its default), read the session flag with default
`False`; otherwise everyone counts as verified. -/
def isVerifiedHuman (env : Env) (s : Session) : Bool :=
  if env.verifyHuman then s.verified_human.getD false else true

/-- `WebUser._participant_identifier`: `user:<pk>` for a registered
user; `session:<key>` for an anonymous one, forcing a session save (key
allocation) when the session has no key yet. -/
def participantIdentifier (env : Env) (r : Request) (s : Session) :
    String × Session :=
  match r.userPk with
  | some pk => ("user:" ++ toString pk, s)
  | none =>
    match s.session_key with
    | some k => ("session:" ++ k, s)
    | none =>
      ("session:" ++ env.freshSessionKey,
        { s with session_key := some env.freshSessionKey })

/-- Value of a counter: the number of identities that have contributed
to the key. -/
def counterValue : List (String × String) → String → Nat
  | [], _ => 0
  | p :: rest, key => (if p.1 = key then 1 else 0) + counterValue rest key

/-- Modelled from the spec: `counters.increment(key, dedup_token)` from
`experiments.counters` (module not in the sources).  Per the spec it is
an atomic increment-with-dedup: monotonic per key, idempotent per
(key, dedup_token) — a repeated token leaves the count unchanged — and
it returns the resulting count. -/
def countersIncrement (key token : String) (cs : List (String × String)) :
    Nat × List (String × String) :=
  if (key, token) ∈ cs then (counterValue cs key, cs)
  else (counterValue cs key + 1, (key, token) :: cs)

/-- `WebUser._increment_participant_count`: build the participant
counter key, call `counters.increment` with the participant identifier
(possibly allocating a session key), and send the
`experiment_incr_participant` signal (not modelled).  The invocation is
appended to the trace. -/
def incrementParticipantCount (env : Env) (r : Request) (e : Experiment)
    (alt : String) (st : St) : St :=
  let key := PARTICIPANT_KEY e.name alt
  let pr := participantIdentifier env r st.session
  let cr := countersIncrement key pr.1 st.counters
  { st with
    session := pr.2
    counters := cr.2
    incrLog := st.incrLog ++ [(key, pr.1)] }

/-- `WebUser._increment_goal_count`: same shape for the goal counter
key, sending the `goal_hit` signal (not modelled). -/
def incrementGoalCount (env : Env) (r : Request) (e : Experiment)
    (alt goal : String) (st : St) : St :=
  let key := GOAL_KEY e.name alt goal
  let pr := participantIdentifier env r st.session
  let cr := countersIncrement key pr.1 st.counters
  { st with
    session := pr.2
    counters := cr.2
    incrLog := st.incrLog ++ [(key, pr.1)] }

/-- Durable lookup `Enrollment.objects.get(user=..., experiment=...)`,
returning the alternative of the row when the row exists. -/
def dbLookup : List ((Nat × String) × String) → Nat → String → Option String
  | [], _, _ => none
  | row :: rest, pk, ename =>
    if row.1 = (pk, ename) then some row.2 else dbLookup rest pk ename

/-- `enrollment.alternative = alt; enrollment.save()`: update the stored
alternative of the (pk, ename) row in place. -/
def dbSet : List ((Nat × String) × String) → Nat → String → String →
    List ((Nat × String) × String)
  | [], _, _, _ => []
  | row :: rest, pk, ename, alt =>
    (if row.1 = (pk, ename) then (row.1, alt) else row) ::
      dbSet rest pk ename alt

/-- Python dict lookup `d.get(name)` on the session enrollment mapping. -/
def findAlt : List (String × String × List String) → String →
    Option (String × List String)
  | [], _ => none
  | p :: rest, n => if p.1 = n then some p.2 else findAlt rest n

/-- Python dict assignment `d[k] = v` on an association list: replace in
place when the key is present, append otherwise. -/
def setKey (es : List (String × String × List String)) (k : String)
    (v : String × List String) : List (String × String × List String) :=
  match es with
  | [] => [(k, v)]
  | p :: rest => if p.1 = k then (k, v) :: rest else p :: setKey rest k v

/-- `WebUser.get_enrollment`: bots get the `CONTROL_GROUP` sentinel; a
registered user gets the alternative of the durable row (or `None`); an
anonymous user gets the alternative cached in the session (or `None`).  The
state is threaded to show the effect of the call on it. -/
def getEnrollment (env : Env) (r : Request) (e : Experiment) (st : St) :
    Option String × St :=
  if isBot r then (some CONTROL_GROUP, st)
  else
    match r.userPk with
    | some pk => (dbLookup st.db pk e.name, st)
    | none =>
      match st.session.enrollments with
      | none => (none, st)
      | some es =>
        match findAlt es e.name with
        | some v => (some v.1, st)
        | none => (none, st)

/-- `WebUser.set_enrollment`.  Bots: return immediately.  Registered:
`get_or_create` the row with the proposed alternative as default — on
`IntegrityError` (`raceError`, the duplicate-key race under concurrent
load) return immediately; otherwise overwrite the alternative of the row when
it differs, then always call `_increment_participant_count`.  Anonymous:
unconditionally store (alternative, empty goal list) in the session
mapping, and increment the participant counter only for a verified
human.  The concluding `experiment_user_added` signal is not modelled. -/
def setEnrollment (env : Env) (r : Request) (raceError : Bool)
    (e : Experiment) (alt : String) (st : St) : St :=
  if isBot r then st
  else
    match r.userPk with
    | some pk =>
      match dbLookup st.db pk e.name with
      | some existing =>
        let st1 :=
          if existing ≠ alt then { st with db := dbSet st.db pk e.name alt }
          else st
        incrementParticipantCount env r e alt st1
      | none =>
        if raceError then st
        else
          let st1 := { st with db := ((pk, e.name), alt) :: st.db }
          incrementParticipantCount env r e alt st1
    | none =>
      let es := st.session.enrollments.getD []
      let st1 :=
        { st with session :=
          { st.session with enrollments := some (setKey es e.name (alt, [])) } }
      if isVerifiedHuman env st1.session then
        incrementParticipantCount env r e alt st1
      else st1

/-- `WebUser.confirm_human`: set the `experiments_verified_human` flag,
send the `user_confirmed_human` signal (not modelled), and — unless the
session enrollment mapping is absent or empty — promote every cached
(experiment, alternative) pair by incrementing its participant
counter via `experiment_manager`. -/
def promoteLoop (env : Env) (r : Request) :
    List (String × String × List String) → St → St
  | [], st => st
  | p :: rest, st =>
    promoteLoop env r rest
      (incrementParticipantCount env r (env.expManager p.1) p.2.1 st)

/-- See `promoteLoop`; this is the body of `confirm_human`. -/
def confirmHuman (env : Env) (r : Request) (st : St) : St :=
  let st0 :=
    { st with session := { st.session with verified_human := some true } }
  match st0.session.enrollments with
  | none => st0
  | some es => if es.isEmpty then st0 else promoteLoop env r es st0

/-- `WebUser._should_increment`, keeping Python truthiness: CONTROL
returns `False`; GARGOYLE with a truthy switch key returns `True` when
`gargoyle.is_active` holds and otherwise falls through to an implicit
`None`; ENABLED returns `True`; everything else — including GARGOYLE
with a falsy switch key — raises `ValueError`. -/
def shouldIncrement (env : Env) (e : Experiment) :
    Except String (Option Bool) :=
  if e.state = ExpState.control then Except.ok (some false)
  else if e.state = ExpState.gargoyle ∧ e.switch_key ≠ "" then
    (if env.gargoyleActive e.switch_key then Except.ok (some true)
     else Except.ok none)
  else if e.state = ExpState.enabled then Except.ok (some true)
  else Except.error "Unrecognised experiment state"

/-- Python truthiness of the `_should_increment` result as used by its
callers (`None` is falsy). -/
def truthy : Option Bool → Bool
  | none => false
  | some b => b

/-- The per-enrollment loop body shared by both branches of
`record_goal`: resolve the experiment, gate on `_should_increment`
(propagating its `ValueError`), and increment the goal counter when the
gate is truthy. -/
def goalLoop (env : Env) (r : Request) (goal : String) :
    List (String × String) → St → Except String St
  | [], st => Except.ok st
  | (n, alt) :: rest, st =>
    match shouldIncrement env (env.expManager n) with
    | Except.error m => Except.error m
    | Except.ok v =>
      goalLoop env r goal rest
        (if truthy v then incrementGoalCount env r (env.expManager n) alt goal st
         else st)

/-- `WebUser.record_goal`: bots record nothing.  enrollment rows of a registered user are fetched and each live one (per `_should_increment`)
gets a goal increment.  An anonymous user must be a verified human;
then each session enrollment is resolved through `experiment_manager`
and gated the same way.  An unverified anonymous event is silently
dropped. -/
def recordGoal (env : Env) (r : Request) (goal : String) (st : St) :
    Except String St :=
  if isBot r then Except.ok st
  else
    match r.userPk with
    | some pk =>
      let rows := st.db.filter fun row => row.1.1 == pk
      if rows.isEmpty then Except.ok st
      else goalLoop env r goal (rows.map fun row => (row.1.2, row.2)) st
    | none =>
      if isVerifiedHuman env st.session then
        match st.session.enrollments with
        | none => Except.ok st
        | some es =>
          if es.isEmpty then Except.ok st
          else goalLoop env r goal (es.map fun p => (p.1, p.2.1)) st
      else Except.ok st


/-! Concrete fixtures used by the closed witnesses and counterexamples. -/

/-- An environment with verification enabled, every gargoyle switch
inactive, and every experiment ENABLED. -/
def env0 : Env :=
  { verifyHuman := true
    gargoyleActive := fun _ => false
    expManager := fun n => { name := n, state := ExpState.enabled, switch_key := "" }
    freshSessionKey := "sk0" }

/-- An environment whose experiments are all in GARGOYLE state with
switch key `sw`, the switch being inactive. -/
def envG : Env :=
  { verifyHuman := true
    gargoyleActive := fun _ => false
    expManager := fun n => { name := n, state := ExpState.gargoyle, switch_key := "sw" }
    freshSessionKey := "sk0" }

/-- `envG` after the switch has been flipped to active. -/
def envGOn : Env := { envG with gargoyleActive := fun _ => true }

/-- A fresh session: no key, no verification flag, no enrollments. -/
def sess0 : Session :=
  { session_key := none, verified_human := none, enrollments := none }

/-- An anonymous session already enrolled in experiment `exp` with
alternative `A`, not yet verified. -/
def sessAnon : Session :=
  { session_key := some "sk", verified_human := none,
    enrollments := some [("exp", "A", [])] }

/-- The empty world. -/
def st0 : St := { session := sess0, db := [], counters := [], incrLog := [] }

/-- A world where registered user 1 is already enrolled in experiment
`exp` with alternative `A` and no counter has been touched. -/
def stEnrolled : St :=
  { session := sess0, db := [((1, "exp"), "A")], counters := [], incrLog := [] }

/-- A world holding `sessAnon` and nothing else. -/
def stAnon : St := { session := sessAnon, db := [], counters := [], incrLog := [] }

/-- A registered user (pk 1) with no user-agent header. -/
def regReq : Request := { userPk := some 1, userAgent := none }

/-- An anonymous request from a known crawler. -/
def botReq : Request :=
  { userPk := none,
    userAgent := some "Mozilla/5.0 (compatible; Googlebot/2.1; +http://www.google.com/bot.html)" }

/-- An anonymous request from an ordinary browser. -/
def anonReq : Request := { userPk := none, userAgent := some "Mozilla/5.0" }

/-- An ENABLED experiment named `exp`. -/
def eE : Experiment := { name := "exp", state := ExpState.enabled, switch_key := "" }

/-- A CONTROL experiment named `exp`. -/
def eC : Experiment := { name := "exp", state := ExpState.control, switch_key := "" }

/-- A GARGOYLE experiment named `exp` with switch key `sw`. -/
def eG : Experiment := { name := "exp", state := ExpState.gargoyle, switch_key := "sw" }

/-- A GARGOYLE experiment with an empty (falsy) switch key. -/
def eGnokey : Experiment := { name := "exp", state := ExpState.gargoyle, switch_key := "" }

/-- An experiment whose state is outside the known enumeration. -/
def eO : Experiment := { name := "exp", state := ExpState.other 7, switch_key := "" }

/-! Helper lemmas shared by the claim theorems. -/

/-- `_increment_participant_count` never touches the durable rows. -/
@[simp] theorem incrPC_db (env r e alt st) :
    (incrementParticipantCount env r e alt st).db = st.db := rfl

/-- `_increment_goal_count` never touches the durable rows. -/
@[simp] theorem incrGC_db (env r e alt goal st) :
    (incrementGoalCount env r e alt goal st).db = st.db := rfl

/-- Adding a contribution to a key raises its counter by one. -/
@[simp] theorem counterValue_cons_self (cs k t) :
    counterValue ((k, t) :: cs) k = counterValue cs k + 1 := by
  simp [counterValue, Nat.add_comm]

/-- Adding a contribution to a key leaves every other counter alone. -/
theorem counterValue_cons_ne (cs k t k') (h : k' ≠ k) :
    counterValue ((k, t) :: cs) k' = counterValue cs k' := by
  simp [counterValue, Ne.symm h]

/-- Dict assignment followed by lookup of the same key finds the
assigned value. -/
theorem findAlt_setKey (es : List (String × String × List String)) (k : String)
    (v : String × List String) :
    findAlt (setKey es k v) k = some v := by
  induction es with
  | nil => simp [setKey, findAlt]
  | cons p rest ih =>
    by_cases h : p.1 = k
    · simp [setKey, findAlt, h]
    · simp [setKey, findAlt, h, ih]

/-- Updating an existing row and re-reading it yields the new value. -/
theorem dbLookup_dbSet (db : List ((Nat × String) × String)) (pk ename alt v)
    (h : dbLookup db pk ename = some v) :
    dbLookup (dbSet db pk ename alt) pk ename = some alt := by
  induction db with
  | nil => simp [dbLookup] at h
  | cons row rest ih =>
    by_cases hk : row.1 = (pk, ename)
    · simp [dbLookup, dbSet, hk]
    · simp [dbLookup, dbSet, hk] at h ⊢
      exact ih h

/-! The claims. -/

/-- Claim C1, counterexample: re-enrolling registered user 1 in the same
experiment with a different alternative does change the stored
alternative — after `set_enrollment(exp, A)` the row holds `A`, and a
later `set_enrollment(exp, B)` silently overwrites it to `B`. -/
theorem set_reenrollment_changes_cx :
    dbLookup (setEnrollment env0 regReq false eE "A" st0).db 1 "exp" = some "A" ∧
    dbLookup (setEnrollment env0 regReq false eE "B"
        (setEnrollment env0 regReq false eE "A" st0)).db 1 "exp" = some "B" ∧
    some "B" ≠ some "A" := by decide

/-- Claim C1, amended: for a registered, non-bot identity, a
`set_enrollment` call that does not lose the duplicate-key race leaves
the stored alternative equal to the alternative it requested — a later
call with a different alternative overwrites the row (last writer wins)
rather than keeping the first value. -/
theorem set_enrollment_last_writer_wins (env : Env) (r : Request) (pk : Nat)
    (e : Experiment) (alt : String) (st : St)
    (hb : isBot r = false) (hpk : r.userPk = some pk) :
    dbLookup (setEnrollment env r false e alt st).db pk e.name = some alt := by
  cases hdb : dbLookup st.db pk e.name with
  | none => simp [setEnrollment, hb, hpk, hdb, dbLookup]
  | some existing =>
    by_cases hne : existing = alt
    · subst hne; simp [setEnrollment, hb, hpk, hdb]
    · simp [setEnrollment, hb, hpk, hdb, hne]
      exact dbLookup_dbSet st.db pk e.name alt existing hdb

/-- Witness for the amended claim C1 at a concrete re-enrollment. -/
theorem set_enrollment_last_writer_wins_w :
    dbLookup (setEnrollment env0 regReq false eE "B" stEnrolled).db 1 "exp" = some "B" :=
  set_enrollment_last_writer_wins env0 regReq 1 eE "B" stEnrolled (by decide) rfl

/-- Claim C2, counterexample: a `set_enrollment` call that loses the
duplicate-key race (`IntegrityError` on create) returns without firing
the participant increment at all — the invocation trace stays empty
instead of growing by exactly one entry. -/
theorem race_loser_fires_no_increment_cx :
    (setEnrollment env0 regReq true eE "A" st0).incrLog = [] ∧
    ¬ ((setEnrollment env0 regReq true eE "A" st0).incrLog.length
        = st0.incrLog.length + 1) := by decide

/-- Claim C2, amended: for a registered, non-bot identity, a
`set_enrollment` call that does not hit the duplicate-key race fires the
participant increment exactly once (the invocation trace grows by
exactly the participant entry, with no engine-level deduplication: when
the counter store has already seen this (key, identity) pair the stored
counters do not change); a call that loses the race on a fresh row
returns without firing any increment. -/
theorem set_enrollment_increment_per_call (env : Env) (r : Request) (pk : Nat)
    (e : Experiment) (alt : String) (st : St)
    (hb : isBot r = false) (hpk : r.userPk = some pk) :
    (setEnrollment env r false e alt st).incrLog
      = st.incrLog ++ [(PARTICIPANT_KEY e.name alt, "user:" ++ toString pk)] ∧
    (dbLookup st.db pk e.name = none →
      (setEnrollment env r true e alt st).incrLog = st.incrLog) ∧
    ((PARTICIPANT_KEY e.name alt, "user:" ++ toString pk) ∈ st.counters →
      (setEnrollment env r false e alt st).counters = st.counters) := by
  refine ⟨?_, fun hdb => ?_, fun hmem => ?_⟩
  · cases hdb : dbLookup st.db pk e.name with
    | none =>
      simp [setEnrollment, hb, hpk, hdb, incrementParticipantCount,
        participantIdentifier]
    | some existing =>
      by_cases hne : existing = alt <;>
        simp [setEnrollment, hb, hpk, hdb, hne, incrementParticipantCount,
          participantIdentifier]
  · simp [setEnrollment, hb, hpk, hdb]
  · cases hdb : dbLookup st.db pk e.name with
    | none =>
      simp [setEnrollment, hb, hpk, hdb, incrementParticipantCount,
        participantIdentifier, countersIncrement, hmem]
    | some existing =>
      by_cases hne : existing = alt <;>
        simp [setEnrollment, hb, hpk, hdb, hne, incrementParticipantCount,
          participantIdentifier, countersIncrement, hmem]

/-- Witness for the amended claim C2: a clean call fires exactly one
increment, a race-losing call fires none. -/
theorem set_enrollment_increment_per_call_w :
    (setEnrollment env0 regReq false eE "A" st0).incrLog
      = st0.incrLog ++ [(PARTICIPANT_KEY "exp" "A", "user:" ++ toString 1)] ∧
    (setEnrollment env0 regReq true eE "A" st0).incrLog = st0.incrLog := by
  have h := set_enrollment_increment_per_call env0 regReq 1 eE "A" st0 (by decide) rfl
  exact ⟨h.1, h.2.1 (by decide)⟩

/-- Claim C3, counterexample: with experiment `exp` in GARGOYLE state
and its switch inactive, `set_enrollment` for an already enrolled
registered identity still increments the participant counter from 0
to 1 — the participant path is not gated by the switch. -/
theorem gargoyle_inactive_set_increments_cx :
    counterValue stEnrolled.counters (PARTICIPANT_KEY "exp" "A") = 0 ∧
    counterValue (setEnrollment env0 regReq false eG "A" stEnrolled).counters
      (PARTICIPANT_KEY "exp" "A") = 1 ∧
    env0.gargoyleActive eG.switch_key = false ∧
    eG.state = ExpState.gargoyle ∧ eG.switch_key ≠ "" := by decide

/-- Claim C3, amended: for a GARGOYLE experiment with a switch the
oracle reports inactive, `record_goal` never increments any counter
(the call returns the state unchanged), and once the switch is active a
subsequent `record_goal` increments the goal counter without any
re-enrollment; `set_enrollment`, however, increments the participant
counter regardless of the switch (see the counterexample). -/
theorem record_goal_gargoyle_gate (env1 env2 : Env) (r : Request) (pk : Nat)
    (n : String) (e : Experiment) (alt goal : String) (st : St)
    (hb : isBot r = false) (hpk : r.userPk = some pk)
    (hrows : st.db.filter (fun row => row.1.1 == pk) = [((pk, n), alt)])
    (he1 : env1.expManager n = e) (he2 : env2.expManager n = e)
    (hs : e.state = ExpState.gargoyle) (hk : e.switch_key ≠ "")
    (hoff : env1.gargoyleActive e.switch_key = false)
    (hon : env2.gargoyleActive e.switch_key = true)
    (hfresh : (GOAL_KEY e.name alt goal, "user:" ++ toString pk) ∉ st.counters) :
    recordGoal env1 r goal st = Except.ok st ∧
    recordGoal env2 r goal st
      = Except.ok (incrementGoalCount env2 r e alt goal st) ∧
    counterValue (incrementGoalCount env2 r e alt goal st).counters
        (GOAL_KEY e.name alt goal)
      = counterValue st.counters (GOAL_KEY e.name alt goal) + 1 := by
  refine ⟨?_, ?_, ?_⟩
  · simp [recordGoal, hb, hpk, hrows, goalLoop, he1, shouldIncrement, hs, hk,
      hoff, truthy]
  · simp [recordGoal, hb, hpk, hrows, goalLoop, he2, shouldIncrement, hs, hk,
      hon, truthy]
  · simp [incrementGoalCount, participantIdentifier, hpk, countersIncrement, hfresh]

/-- Witness for the amended claim C3: same enrolled state, inactive
switch drops the goal, active switch counts it. -/
theorem record_goal_gargoyle_gate_w :
    recordGoal envG regReq "sig" stEnrolled = Except.ok stEnrolled ∧
    recordGoal envGOn regReq "sig" stEnrolled
      = Except.ok (incrementGoalCount envGOn regReq eG "A" "sig" stEnrolled) ∧
    counterValue (incrementGoalCount envGOn regReq eG "A" "sig" stEnrolled).counters
        (GOAL_KEY "exp" "A" "sig")
      = counterValue stEnrolled.counters (GOAL_KEY "exp" "A" "sig") + 1 :=
  record_goal_gargoyle_gate envG envGOn regReq 1 "exp" eG "A" "sig" stEnrolled
    (by decide) rfl (by decide) rfl rfl rfl (by decide) (by decide) (by decide)
    (by decide)

/-- Claim C4: `_should_increment` is a pure decision on the experiment
state — `False` for CONTROL, `True` for ENABLED, for GARGOYLE (with the
switch key its data model requires) true exactly when the oracle reports
the switch active, and an unrecognized-state error for any other state
value. -/
theorem shouldIncrement_contract (env : Env) (e : Experiment) :
    (e.state = ExpState.control → shouldIncrement env e = Except.ok (some false)) ∧
    (e.state = ExpState.enabled → shouldIncrement env e = Except.ok (some true)) ∧
    (e.state = ExpState.gargoyle → e.switch_key ≠ "" →
      (shouldIncrement env e = Except.ok (some true)
        ↔ env.gargoyleActive e.switch_key = true)) ∧
    (∀ v, e.state = ExpState.other v →
      shouldIncrement env e = Except.error "Unrecognised experiment state") := by
  refine ⟨fun hs => ?_, fun hs => ?_, fun hs hk => ?_, fun v hs => ?_⟩
  · simp [shouldIncrement, hs]
  · simp [shouldIncrement, hs]
  · cases hg : env.gargoyleActive e.switch_key <;>
      simp [shouldIncrement, hs, hk, hg]
  · simp [shouldIncrement, hs]

/-- Witness for claim C4 at one concrete experiment per state. -/
theorem shouldIncrement_contract_w :
    shouldIncrement env0 eC = Except.ok (some false) ∧
    shouldIncrement env0 eE = Except.ok (some true) ∧
    (shouldIncrement envGOn eG = Except.ok (some true)
      ↔ envGOn.gargoyleActive eG.switch_key = true) ∧
    shouldIncrement env0 eO = Except.error "Unrecognised experiment state" :=
  ⟨(shouldIncrement_contract env0 eC).1 rfl,
   (shouldIncrement_contract env0 eE).2.1 rfl,
   (shouldIncrement_contract envGOn eG).2.2.1 rfl (by decide),
   (shouldIncrement_contract env0 eO).2.2.2 7 rfl⟩

/-- Claim C5: for a request whose user-agent matches a crawler
signature, `get_enrollment` returns the `CONTROL_GROUP` sentinel (never
`None`) regardless of any stored enrollment, and `set_enrollment` and
`record_goal` return with the session, durable store, counters and
invocation trace all untouched. -/
theorem bots_short_circuit (env : Env) (r : Request) (race : Bool)
    (e : Experiment) (alt goal : String) (st : St) (hb : isBot r = true) :
    getEnrollment env r e st = (some CONTROL_GROUP, st) ∧
    setEnrollment env r race e alt st = st ∧
    recordGoal env r goal st = Except.ok st := by
  refine ⟨?_, ?_, ?_⟩ <;> simp [getEnrollment, setEnrollment, recordGoal, hb]

/-- Witness for claim C5 at a concrete crawler request. -/
theorem bots_short_circuit_w :
    getEnrollment env0 botReq eE st0 = (some CONTROL_GROUP, st0) ∧
    setEnrollment env0 botReq false eE "A" st0 = st0 ∧
    recordGoal env0 botReq "g" st0 = Except.ok st0 :=
  bots_short_circuit env0 botReq false eE "A" "g" st0 (by decide)

/-- Claim C6: for a non-bot anonymous identity that is not a verified
human, `set_enrollment` only rewrites the session enrollment mapping —
caching (alternative, empty goal list) under the experiment name — while
durable rows, counters and the invocation trace stay unchanged, and
`record_goal` silently drops the event with no state change at all. -/
theorem anon_unverified_cached_not_counted (env : Env) (r : Request) (race : Bool)
    (e : Experiment) (alt goal : String) (st : St)
    (hb : isBot r = false) (hpk : r.userPk = none)
    (hv : isVerifiedHuman env st.session = false) :
    setEnrollment env r race e alt st
      = { st with session := { st.session with
          enrollments := some (setKey (st.session.enrollments.getD [])
            e.name (alt, [])) } } ∧
    findAlt ((setEnrollment env r race e alt st).session.enrollments.getD [])
        e.name = some (alt, []) ∧
    (setEnrollment env r race e alt st).counters = st.counters ∧
    (setEnrollment env r race e alt st).incrLog = st.incrLog ∧
    recordGoal env r goal st = Except.ok st := by
  have henv : env.verifyHuman = true := by
    by_cases h : env.verifyHuman = true
    · exact h
    · simp [isVerifiedHuman, h] at hv
  have hflag : st.session.verified_human.getD false = false := by
    simpa [isVerifiedHuman, henv] using hv
  have h1 : setEnrollment env r race e alt st
      = { st with session := { st.session with
          enrollments := some (setKey (st.session.enrollments.getD [])
            e.name (alt, [])) } } := by
    simp [setEnrollment, hb, hpk, isVerifiedHuman, henv, hflag]
  refine ⟨h1, ?_, ?_, ?_, ?_⟩
  · rw [h1]; exact findAlt_setKey _ _ _
  · rw [h1]
  · rw [h1]
  · simp [recordGoal, hb, hpk, hv]

/-- Witness for claim C6 at a concrete unverified anonymous request. -/
theorem anon_unverified_cached_not_counted_w :
    (setEnrollment env0 anonReq false eE "A" st0).counters = st0.counters ∧
    findAlt ((setEnrollment env0 anonReq false eE "A" st0).session.enrollments.getD [])
        "exp" = some ("A", []) ∧
    recordGoal env0 anonReq "g" st0 = Except.ok st0 := by
  have h := anon_unverified_cached_not_counted env0 anonReq false eE "A" "g" st0
    (by decide) rfl (by decide)
  exact ⟨h.2.2.1, h.2.1, h.2.2.2.2⟩

/-- Claim C7: for an anonymous identity whose session caches exactly the
enrollment (experiment, alternative) and whose identity has not yet
contributed to that participant counter, the first `confirm_human` call
raises that counter by exactly one, changes no other counter (in
particular replays no goal counters), and a second `confirm_human` call
leaves the counter where it was — the replayed increment is absorbed by
the dedup of the counter store. -/
theorem confirm_human_promotion (env : Env) (r : Request) (n alt : String)
    (gs : List String) (k : String) (st : St)
    (hpk : r.userPk = none)
    (hsk : st.session.session_key = some k)
    (hen : st.session.enrollments = some [(n, alt, gs)])
    (hfresh : (PARTICIPANT_KEY (env.expManager n).name alt, "session:" ++ k)
      ∉ st.counters) :
    counterValue (confirmHuman env r st).counters
        (PARTICIPANT_KEY (env.expManager n).name alt)
      = counterValue st.counters (PARTICIPANT_KEY (env.expManager n).name alt) + 1 ∧
    (∀ key, key ≠ PARTICIPANT_KEY (env.expManager n).name alt →
      counterValue (confirmHuman env r st).counters key
        = counterValue st.counters key) ∧
    counterValue (confirmHuman env r (confirmHuman env r st)).counters
        (PARTICIPANT_KEY (env.expManager n).name alt)
      = counterValue (confirmHuman env r st).counters
          (PARTICIPANT_KEY (env.expManager n).name alt) := by
  have h1 : confirmHuman env r st
      = { st with
          session := { st.session with verified_human := some true }
          counters := (PARTICIPANT_KEY (env.expManager n).name alt,
            "session:" ++ k) :: st.counters
          incrLog := st.incrLog
            ++ [(PARTICIPANT_KEY (env.expManager n).name alt,
                 "session:" ++ k)] } := by
    simp [confirmHuman, hen, promoteLoop, incrementParticipantCount,
      participantIdentifier, hpk, hsk, countersIncrement, hfresh]
  have h2 : confirmHuman env r (confirmHuman env r st)
      = { confirmHuman env r st with
          incrLog := (confirmHuman env r st).incrLog
            ++ [(PARTICIPANT_KEY (env.expManager n).name alt,
                 "session:" ++ k)] } := by
    rw [h1]
    simp [confirmHuman, hen, promoteLoop, incrementParticipantCount,
      participantIdentifier, hpk, hsk, countersIncrement]
  refine ⟨?_, fun key hkey => ?_, ?_⟩
  · rw [h1]; simp
  · rw [h1]; exact counterValue_cons_ne _ _ _ _ hkey
  · rw [h2]

/-- Witness for claim C7 at a concrete unverified anonymous session:
the first promotion counts once, the second does not count again. -/
theorem confirm_human_promotion_w :
    counterValue (confirmHuman env0 anonReq stAnon).counters
        (PARTICIPANT_KEY "exp" "A")
      = counterValue stAnon.counters (PARTICIPANT_KEY "exp" "A") + 1 ∧
    counterValue (confirmHuman env0 anonReq (confirmHuman env0 anonReq stAnon)).counters
        (PARTICIPANT_KEY "exp" "A")
      = counterValue (confirmHuman env0 anonReq stAnon).counters
          (PARTICIPANT_KEY "exp" "A") := by
  have h := confirm_human_promotion env0 anonReq "exp" "A" [] "sk" stAnon rfl rfl
    rfl (by decide)
  exact ⟨h.1, h.2.2⟩

/-- Claim C8: a request with no user-agent header is classified as
non-bot (the header defaults to the empty string, which matches no
crawler signature), so it fully participates: `get_enrollment` returns
the stored alternative of a registered identity and `set_enrollment`
fires the participant increment. -/
theorem absent_ua_participates (env : Env) (r : Request) (pk : Nat)
    (e : Experiment) (alt : String) (st : St)
    (hua : r.userAgent = none) (hpk : r.userPk = some pk)
    (hdb : dbLookup st.db pk e.name = some alt) :
    isBot r = false ∧
    getEnrollment env r e st = (some alt, st) ∧
    (setEnrollment env r false e alt st).incrLog
      = st.incrLog ++ [(PARTICIPANT_KEY e.name alt, "user:" ++ toString pk)] := by
  have hb : isBot r = false := by
    simp only [isBot, hua]; decide
  refine ⟨hb, ?_, ?_⟩
  · simp [getEnrollment, hb, hpk, hdb]
  · simp [setEnrollment, hb, hpk, hdb, incrementParticipantCount,
      participantIdentifier]

/-- Witness for claim C8 at a concrete header-less registered request. -/
theorem absent_ua_participates_w :
    isBot regReq = false ∧
    getEnrollment env0 regReq eE stEnrolled = (some "A", stEnrolled) ∧
    (setEnrollment env0 regReq false eE "A" stEnrolled).incrLog
      = stEnrolled.incrLog ++ [(PARTICIPANT_KEY "exp" "A", "user:" ++ toString 1)] :=
  absent_ua_participates env0 regReq 1 eE "A" stEnrolled rfl rfl (by decide)

/-- Claim C9: a GARGOYLE experiment whose switch key is absent/empty
makes `_should_increment` raise the unrecognized-state `ValueError`
instead of returning a boolean, because the falsy key skips the GARGOYLE
branch and the chain falls into the final `else`. -/
theorem gargoyle_empty_key (env : Env) (e : Experiment)
    (hs : e.state = ExpState.gargoyle) (hk : e.switch_key = "") :
    shouldIncrement env e = Except.error "Unrecognised experiment state" := by
  simp [shouldIncrement, hs, hk]

/-- Witness for claim C9 at a concrete key-less GARGOYLE experiment. -/
theorem gargoyle_empty_key_w :
    shouldIncrement env0 eGnokey = Except.error "Unrecognised experiment state" :=
  gargoyle_empty_key env0 eGnokey rfl rfl

/-- Claim C10: `get_enrollment` is read-only — for every identity kind
and every experiment it returns the state (session, durable rows,
counters, invocation trace) exactly as it found it. -/
theorem getEnrollment_read_only (env : Env) (r : Request) (e : Experiment)
    (st : St) : (getEnrollment env r e st).2 = st := by
  unfold getEnrollment
  split
  · rfl
  · split
    · rfl
    · split
      · rfl
      · split <;> rfl

end DjangoExperiments
